/-
Verification of the agent control core of the `metis` repository:
the tool registry/dispatcher (`app/agents/tools/manager.py`), the agent
step logic (`app/agents/base.py`), the orchestrator loop
(`app/agents/loop.py`), the completion tools
(`app/agents/tools/completion_tools.py`) and the sandbox lifecycle
manager (`app/agents/sandbox/manager.py`), shallowly embedded in Lean 4.

Python values that flow through the tool layer (`Any`-typed payloads,
keyword-argument mappings, JSON objects) are embedded as a small
JSON-like value type `JValue` together with Python truthiness.
Exceptions are embedded as `Except String`; a function that cannot
raise returns a plain value.  Wall-clock time is embedded as a natural
number supplied by the caller (`now`), matching the places where the
source reads `time.time()`.
-/
import Mathlib

namespace Metis

/-- Python-style dynamic value (`Any` payloads, JSON arguments). -/
inductive JValue where
  | null : JValue
  | bool : Bool → JValue
  | num : Int → JValue
  | str : String → JValue
  | arr : List JValue → JValue
  | obj : List (String × JValue) → JValue

/-- Python truthiness of a dynamic value (`if result.data:` etc.):
`None`, `False`, `0`, `""`, `[]`, `{}` are falsy, everything else truthy. -/
def JValue.truthy : JValue → Bool
  | .null => false
  | .bool b => b
  | .num n => n != 0
  | .str s => s != ""
  | .arr xs => !xs.isEmpty
  | .obj kvs => !kvs.isEmpty

/-- `isinstance(v, dict)`. -/
def JValue.isObj : JValue → Bool
  | .obj _ => true
  | _ => false

/-- Python `dict.get(k)` on a dynamic value: the value at key `k`
(first binding, as in a dict with unique keys), `None` when the key is
absent or the value is not a dict. -/
def JValue.objGet (v : JValue) (k : String) : JValue :=
  match v with
  | .obj kvs => (((kvs.find? (fun p => p.1 == k)).map Prod.snd).getD .null)
  | _ => .null

/-- `ToolResult` (`app/agents/tools/base.py`): success flag, `Any` data
(default `None`), optional error string, metadata dict. -/
structure ToolResult where
  success : Bool
  data : JValue := .null
  error : Option String := none
  metadata : List (String × JValue) := []

/-- One parsed tool call (`BaseAgent._extract_tool_calls` output):
correlation id, tool name, keyword-argument mapping. -/
structure ToolCall where
  id : String
  name : String
  arguments : List (String × JValue)

/-- A registered tool: its name and its `execute` implementation.
`run` returns `Except.error` when the Python call would raise (either a
`TypeError` from keyword binding or an exception escaping the body). -/
structure Tool where
  name : String
  run : List (String × JValue) → Except String ToolResult

/-! ## Tool registry and dispatcher (`ToolManager`, manager.py) -/

/-- `ToolManager.execute`: look the tool up by name; when absent return
a failure `ToolResult` carrying `"Tool not found: <name>"`; otherwise
run the tool (whose execution may raise). -/
def ToolManager.execute (tools : List Tool) (tool_name : String)
    (kwargs : List (String × JValue)) : Except String ToolResult :=
  match tools.find? (fun t => t.name == tool_name) with
  | none => .ok { success := false, error := some ("Tool not found: " ++ tool_name) }
  | some t => t.run kwargs

/-- Python dict insertion `d[k] = v`: overwrite in place when the key is
present, append otherwise. -/
def dictInsert (d : List (String × ToolResult)) (k : String) (v : ToolResult) :
    List (String × ToolResult) :=
  if (d.find? (fun p => p.1 == k)).isSome then
    d.map (fun p => if p.1 == k then (k, v) else p)
  else
    d ++ [(k, v)]

/-- The dict comprehension `{call_id: result for call_id, result in completed}`. -/
def dictOfPairs (ps : List (String × ToolResult)) : List (String × ToolResult) :=
  ps.foldl (fun d p => dictInsert d p.1 p.2) []

/-- `ToolManager.execute_batch`: run `execute` for every call and build
the id-keyed dict of results.  `asyncio.gather` is used with default
`return_exceptions=False`, so an exception raised by any one tool
propagates out of `execute_batch` and no mapping is returned; this is
embedded as the `Except` monad over the calls. -/
def ToolManager.execute_batch (tools : List Tool) (tool_calls : List ToolCall) :
    Except String (List (String × ToolResult)) := do
  let completed ← tool_calls.mapM (fun call => do
    let result ← ToolManager.execute tools call.name call.arguments
    pure (call.id, result))
  pure (dictOfPairs completed)

/-! ## Agent state and step logic (`AgentStatus`, `AgentState`, `BaseAgent`, base.py) -/

/-- `AgentStatus` (base.py). -/
inductive AgentStatus where
  | pending
  | executing
  | completed
  | failed
  deriving Repr, DecidableEq

/-- `AgentState` (base.py): persistent agent state.  The transcript
keeps the structured content of each appended message: a plain
role/content message, the assistant message recording a batch of tool
calls, or a tool-role message carrying one call's result (`none` stands
for the `{"error": "No result"}` placeholder used when the result dict
misses the call id). -/
inductive Message where
  | chat (role : String) (content : String)
  | assistantCalls (tool_calls : List ToolCall)
  | toolResult (tool_call_id : String) (result : Option ToolResult)

structure AgentState where
  agent_id : String
  status : AgentStatus := .pending
  iteration : Nat := 0
  tokens_used : Nat := 0
  tool_calls_made : Nat := 0
  start_time : Nat
  last_update : Nat
  context : List (String × JValue) := []
  result : Option JValue := none
  error : Option String := none
  messages : List Message := []

/-- The four budget parameters of `BaseAgent.__init__`. -/
structure Budget where
  max_iterations : Nat
  max_tokens : Nat
  max_tool_calls : Nat
  max_duration_seconds : Nat
  deriving Repr, DecidableEq

/-- Initial state built by `BaseAgent.__init__`: pending status, zero
counters, transcript seeded with the system and initial user messages. -/
def AgentState.init (agent_id system_prompt initial_user_message : String)
    (now : Nat) : AgentState :=
  { agent_id := agent_id
    start_time := now
    last_update := now
    messages := [.chat "system" system_prompt, .chat "user" initial_user_message] }

/-- Is the status terminal (`COMPLETED` or `FAILED`)? -/
def AgentStatus.isTerminal (st : AgentStatus) : Bool :=
  st == .completed || st == .failed

/-- The `{"reason": r}` result dict recorded by `should_stop`. -/
def reasonResult (r : String) : JValue :=
  .obj [("reason", .str r)]

/-- `BaseAgent.should_stop` (base.py): returns the stop decision and the
(possibly mutated) state.  `now` is the value of `time.time()` at the
duration check. -/
def BaseAgent.should_stop (b : Budget) (now : Nat) (s : AgentState) :
    Bool × AgentState :=
  if s.status.isTerminal then
    (true, s)
  else if b.max_iterations ≤ s.iteration then
    (true, { s with status := .completed, result := some (reasonResult "max_iterations_reached") })
  else if b.max_tokens ≤ s.tokens_used then
    (true, { s with status := .completed, result := some (reasonResult "max_tokens_reached") })
  else if b.max_tool_calls ≤ s.tool_calls_made then
    (true, { s with status := .completed, result := some (reasonResult "max_tool_calls_reached") })
  else if b.max_duration_seconds ≤ now - s.start_time then
    (true, { s with status := .completed, result := some (reasonResult "max_duration_reached") })
  else
    (false, s)

/-- One result signals completion (`BaseAgent._is_complete` body for a
single result): `result.success and result.data` truthy, the data is a
dict, and `data.get("completed")` is truthy. -/
def signalsCompletion (r : ToolResult) : Bool :=
  r.success && r.data.truthy && r.data.isObj && (r.data.objGet "completed").truthy

/-- `BaseAgent._is_complete`: some result in the batch signals completion. -/
def BaseAgent.is_complete (tool_results : List (String × ToolResult)) : Bool :=
  tool_results.any (fun p => signalsCompletion p.2)

/-- `BaseAgent._extract_final_result`: the data of the first result
signalling completion, `{}` when none does. -/
def BaseAgent.extract_final_result (tool_results : List (String × ToolResult)) : JValue :=
  match tool_results.find? (fun p => signalsCompletion p.2) with
  | some p => p.2.data
  | none => .obj []

/-- `BaseAgent._add_tool_results_to_messages`: append one assistant
message recording the batch's tool calls, then one tool-role message per
call in request order, looking each result up by call id. -/
def BaseAgent.add_tool_results_to_messages (s : AgentState)
    (tool_calls : List ToolCall) (results : List (String × ToolResult)) : AgentState :=
  let s1 := { s with messages := s.messages ++ [Message.assistantCalls tool_calls] }
  { s1 with
    messages := s1.messages ++ tool_calls.map (fun tc =>
      Message.toolResult tc.id ((results.find? (fun p => p.1 == tc.id)).map Prod.snd)) }

/-- The model response as seen after `_extract_tool_calls`: free-text
content, parsed tool calls, and reported token usage (`none` when the
response carries no usage block). -/
structure LLMResponse where
  content : String
  tool_calls : List ToolCall
  usage : Option Nat

/-- `BaseAgent.run` (base.py): one step.  `resp` is the outcome of the
model call together with token accounting and tool-call parsing —
`Except.error e` when any of those raises.  Returns the new state and
the Python return value (`true` = continue, `false` = stop).  The
`try`/`except` of the source is the `Except` case split: every raise
inside the step body lands in a `.failed` state instead of propagating. -/
def BaseAgent.run (tools : List Tool) (now : Nat)
    (resp : Except String LLMResponse) (s : AgentState) : AgentState × Bool :=
  let s := { s with iteration := s.iteration + 1, last_update := now, status := .executing }
  match resp with
  | .error e => ({ s with status := .failed, error := some e }, false)
  | .ok r =>
    let s := match r.usage with
      | some t => { s with tokens_used := s.tokens_used + t }
      | none => s
    if r.tool_calls.isEmpty then
      if r.content == "" then (s, true)
      else ({ s with messages := s.messages ++ [.chat "assistant" r.content] }, true)
    else
      match ToolManager.execute_batch tools r.tool_calls with
      | .error e => ({ s with status := .failed, error := some e }, false)
      | .ok results =>
        let s := { s with tool_calls_made := s.tool_calls_made + r.tool_calls.length }
        if BaseAgent.is_complete results then
          ({ s with status := .completed,
                    result := some (BaseAgent.extract_final_result results) }, false)
        else
          (BaseAgent.add_tool_results_to_messages s r.tool_calls results, true)

/-! ## Orchestrator loop (`AgentLoop.execute`, loop.py)

The Python `while` loop has no built-in bound; it is embedded as fueled
recursion over an abstract step function `f` (one `agent.run()` call,
which in the embedding never raises — its exceptions are already turned
into a `failed` state inside `BaseAgent.run`), with `clock fuel` the
`time.time()` value read by the `should_stop` check at that remaining
fuel.  `AgentLoop.execute` returns the final state together with the
number of `run` calls made; `AgentLoop.trace` records every loop-level
state: the state before each `should_stop` check and each state the
loop hands on or returns. -/

def AgentLoop.execute (b : Budget) (clock : Nat → Nat)
    (f : AgentState → AgentState × Bool) : Nat → AgentState → AgentState × Nat
  | 0, s => (s, 0)
  | fuel + 1, s =>
    let ss := BaseAgent.should_stop b (clock (fuel + 1)) s
    if ss.1 then
      (ss.2, 0)
    else
      let fr := f s
      if fr.2 then
        let rest := AgentLoop.execute b clock f fuel fr.1
        (rest.1, rest.2 + 1)
      else
        (fr.1, 1)

def AgentLoop.trace (b : Budget) (clock : Nat → Nat)
    (f : AgentState → AgentState × Bool) : Nat → AgentState → List AgentState
  | 0, s => [s]
  | fuel + 1, s =>
    let ss := BaseAgent.should_stop b (clock (fuel + 1)) s
    if ss.1 then
      [s, ss.2]
    else
      let fr := f s
      if fr.2 then
        s :: AgentLoop.trace b clock f fuel fr.1
      else
        [s, fr.1]

/-! ## Completion tool (`FinishReviewTool.execute`, completion_tools.py) -/

/-- Python `str.upper()` (on the ASCII data the tool sees). -/
def pyToUpper (s : String) : String := String.mk (s.data.map Char.toUpper)

/-- Python `str.lower()`. -/
def pyToLower (s : String) : String := String.mk (s.data.map Char.toLower)

/-- Python `str.strip()`: drop leading and trailing whitespace. -/
def pyStrip (s : String) : String :=
  String.mk (((s.data.dropWhile Char.isWhitespace).reverse.dropWhile Char.isWhitespace).reverse)

/-- The verdict enumeration of `finish_review`. -/
def finishReviewVerdicts : List String := ["APPROVE", "REQUEST_CHANGES", "COMMENT"]

/-- The severity enumeration of `finish_review`. -/
def finishReviewSeverities : List String := ["low", "medium", "high", "critical"]

/-- `FinishReviewTool.execute`: normalize the verdict
(`verdict.strip().upper()`) and the severity
(`overall_severity.strip().lower()`, default argument `"medium"`),
failing with `success=False` when a normalized value is outside its
enumeration, else succeed with the normalized data and `completed: True`. -/
def FinishReviewTool.execute (summary verdict : String)
    (overall_severity : String := "medium") : ToolResult :=
  let normalized_verdict := pyToUpper (pyStrip verdict)
  if !finishReviewVerdicts.contains normalized_verdict then
    { success := false
      error := some ("Invalid verdict '" ++ verdict ++
        "'. Use APPROVE, REQUEST_CHANGES, or COMMENT.") }
  else
    let normalized_severity := pyToLower (pyStrip overall_severity)
    if !finishReviewSeverities.contains normalized_severity then
      { success := false
        error := some ("Invalid overall_severity '" ++ overall_severity ++
          "'. Use low, medium, high, or critical.") }
    else
      { success := true
        data := .obj [("summary", .str summary),
                      ("verdict", .str normalized_verdict),
                      ("overall_severity", .str normalized_severity),
                      ("completed", .bool true)]
        metadata := [("type", .str "completion")] }

/-! ## Sandbox lifecycle manager (`SandboxManager`, sandbox/manager.py) -/

/-- A Daytona sandbox handle: an identity (which remote environment it
refers to) and its observable state string (`"STARTED"` when running). -/
structure Sandbox where
  sid : Nat
  state : String
  deriving Repr, DecidableEq

/-- The manager's in-memory registry `_active_sandboxes` plus the next
fresh identity the (opaque) `DaytonaClient.create_sandbox` would hand
out. -/
structure SandboxManagerState where
  active : List (String × Sandbox)
  next_sid : Nat
  deriving Repr, DecidableEq

/-- `SandboxManager.acquire`: reuse a registered running sandbox as is,
restart a registered stopped one, otherwise create and register a fresh
one.  Returns the handle, the new manager state, and whether
`create_sandbox` was invoked. -/
def SandboxManager.acquire (m : SandboxManagerState) (agent_id : String) :
    Sandbox × SandboxManagerState × Bool :=
  match m.active.find? (fun p => p.1 == agent_id) with
  | some p =>
    if p.2.state == "STARTED" then
      (p.2, m, false)
    else
      let restarted := { p.2 with state := "STARTED" }
      (restarted,
       { m with active := m.active.map (fun q =>
           if q.1 == agent_id then (q.1, restarted) else q) },
       false)
  | none =>
    let sandbox : Sandbox := { sid := m.next_sid, state := "STARTED" }
    (sandbox,
     { active := m.active ++ [(agent_id, sandbox)], next_sid := m.next_sid + 1 },
     true)

/-! ## Concrete fixtures used to instantiate the theorems -/

/-- A tool whose implementation raises (models e.g. a `TypeError` from
keyword binding or an exception escaping a tool body). -/
def boomTool : Tool :=
  { name := "boom", run := fun _ => .error "boom" }

/-- A tool that succeeds with no payload. -/
def noopTool : Tool :=
  { name := "noop", run := fun _ => .ok { success := true } }

/-- A completion-style tool: succeeds with a dict payload whose
`completed` key is `True`. -/
def doneTool : Tool :=
  { name := "done",
    run := fun _ => .ok { success := true
                          data := .obj [("answer", .str "42"), ("completed", .bool true)] } }

/-- A fresh agent state as `BaseAgent.__init__` builds it at time 0. -/
def sampleState : AgentState :=
  AgentState.init "agent-1" "sys" "task" 0

/-- One step of a model that never calls any tool: a `run` call whose
model response has free-text content, no tool calls, and 10 usage
tokens. -/
def noToolStep (s : AgentState) : AgentState × Bool :=
  BaseAgent.run [] 0 (.ok { content := "thinking", tool_calls := [], usage := some 10 }) s

/-- An abstract step that only advances the iteration counter and asks
to continue; used to exercise the loop bound. -/
def bareStep (s : AgentState) : AgentState × Bool :=
  ({ s with iteration := s.iteration + 1 }, true)

/-- Consecutive loop-level states: once the earlier one is terminal, the
later one keeps its status and its iteration / token / tool-call
counters. -/
def statusCountersFrozen (a b : AgentState) : Prop :=
  a.status.isTerminal = true →
    b.status = a.status ∧ b.iteration = a.iteration ∧
    b.tokens_used = a.tokens_used ∧ b.tool_calls_made = a.tool_calls_made

/-! # Theorems -/

/-- C7: for every tool name absent from the registry and every argument
mapping, `ToolManager.execute` returns (never raises) a failed
`ToolResult` whose error message contains `"not found"`. -/
theorem C7_unknown_tool_fails_closed (tools : List Tool) (tool_name : String)
    (kwargs : List (String × JValue))
    (habsent : tools.find? (fun t => t.name == tool_name) = none) :
    ToolManager.execute tools tool_name kwargs =
      .ok { success := false, error := some ("Tool not found: " ++ tool_name) } ∧
    "not found".data <:+: ("Tool not found: " ++ tool_name).data := by
  constructor
  · unfold ToolManager.execute
    rw [habsent]
  · refine ⟨"Tool ".data, ": ".data ++ tool_name.data, ?_⟩
    rw [String.data_append,
      show "Tool not found: ".data = "Tool ".data ++ "not found".data ++ ": ".data from by decide]
    simp

/-- C7 witness: dispatching `"missing_tool"` against an empty registry
returns the failure result and the message contains `"not found"`. -/
theorem C7_witness :
    ToolManager.execute [] "missing_tool" [] =
      .ok { success := false, error := some ("Tool not found: " ++ "missing_tool") } ∧
    "not found".data <:+: ("Tool not found: " ++ "missing_tool").data :=
  C7_unknown_tool_fails_closed [] "missing_tool" [] rfl

/-- C9: acquiring twice in a row with the same task id while the
registered handle reports the running state returns the same handle both
times, leaves the registry untouched, and never invokes sandbox
creation (the `created` flag is `false` on both calls). -/
theorem C9_acquire_idempotent (m : SandboxManagerState) (agent_id k : String)
    (sb : Sandbox)
    (hfind : m.active.find? (fun p => p.1 == agent_id) = some (k, sb))
    (hrun : sb.state = "STARTED") :
    SandboxManager.acquire m agent_id = (sb, m, false) ∧
    SandboxManager.acquire (SandboxManager.acquire m agent_id).2.1 agent_id =
      (sb, m, false) := by
  have h1 : SandboxManager.acquire m agent_id = (sb, m, false) := by
    unfold SandboxManager.acquire
    rw [hfind]
    simp [hrun]
  exact ⟨h1, by rw [h1]; exact h1⟩

/-- C9 witness: on a registry holding a running sandbox for `"task-7"`,
both acquisitions return that sandbox and do not create. -/
theorem C9_witness :
    SandboxManager.acquire ⟨[("task-7", ⟨0, "STARTED"⟩)], 1⟩ "task-7" =
      (⟨0, "STARTED"⟩, ⟨[("task-7", ⟨0, "STARTED"⟩)], 1⟩, false) ∧
    SandboxManager.acquire
        (SandboxManager.acquire ⟨[("task-7", ⟨0, "STARTED"⟩)], 1⟩ "task-7").2.1 "task-7" =
      (⟨0, "STARTED"⟩, ⟨[("task-7", ⟨0, "STARTED"⟩)], 1⟩, false) :=
  C9_acquire_idempotent ⟨[("task-7", ⟨0, "STARTED"⟩)], 1⟩ "task-7" "task-7"
    ⟨0, "STARTED"⟩ rfl rfl

/-- C8 counterexample: the supplied verdict `"approve"` is not one of
the enumerated values `APPROVE`/`REQUEST_CHANGES`/`COMMENT`, yet
`finish_review` succeeds (it coerces via `strip().upper()` first), so
the claim as stated is false. -/
theorem C8_counterexample :
    "approve" ∉ finishReviewVerdicts ∧
    (FinishReviewTool.execute "ok" "approve" "medium").success = true := by
  constructor
  · decide
  · rfl

/-- C8 (amended): `finish_review` validates the *normalized* inputs —
with `v = verdict.strip().upper()` and
`sev = overall_severity.strip().lower()` (the severity argument
defaulting to `"medium"` when omitted), it fails closed (`success=false`)
when `v` or `sev` is outside its enumeration, and otherwise succeeds
with data `{summary, verdict: v, overall_severity: sev, completed: true}`. -/
theorem C8_finish_review_validates (summary verdict overall_severity : String) :
    (FinishReviewTool.execute summary verdict =
      FinishReviewTool.execute summary verdict "medium") ∧
    (pyToUpper (pyStrip verdict) ∉ finishReviewVerdicts →
      (FinishReviewTool.execute summary verdict overall_severity).success = false) ∧
    (pyToUpper (pyStrip verdict) ∈ finishReviewVerdicts →
      pyToLower (pyStrip overall_severity) ∉ finishReviewSeverities →
      (FinishReviewTool.execute summary verdict overall_severity).success = false) ∧
    (pyToUpper (pyStrip verdict) ∈ finishReviewVerdicts →
      pyToLower (pyStrip overall_severity) ∈ finishReviewSeverities →
      FinishReviewTool.execute summary verdict overall_severity =
        { success := true
          data := .obj [("summary", .str summary),
                        ("verdict", .str (pyToUpper (pyStrip verdict))),
                        ("overall_severity", .str (pyToLower (pyStrip overall_severity))),
                        ("completed", .bool true)]
          metadata := [("type", .str "completion")] }) := by
  refine ⟨rfl, ?_, ?_, ?_⟩
  · intro hv
    unfold FinishReviewTool.execute
    simp [hv]
  · intro hv hs
    unfold FinishReviewTool.execute
    simp [hv, hs]
  · intro hv hs
    unfold FinishReviewTool.execute
    simp [hv, hs]

/-- When every element of a list maps to an `ok` computation, `mapM`
over `Except` succeeds and the collected ids are the input ids. -/
theorem mapM_execute_ok (tools : List Tool) (calls : List ToolCall)
    (hok : ∀ c ∈ calls, ∃ r, ToolManager.execute tools c.name c.arguments = Except.ok r) :
    ∃ ps, calls.mapM (fun call => do
        let result ← ToolManager.execute tools call.name call.arguments
        pure (call.id, result)) = Except.ok ps ∧
      ps.map Prod.fst = calls.map ToolCall.id := by
  induction calls with
  | nil => exact ⟨[], rfl, rfl⟩
  | cons c cs ih =>
    obtain ⟨r, hr⟩ := hok c (List.mem_cons_self c cs)
    obtain ⟨ps, hps, hmap⟩ := ih (fun c' hc' => hok c' (List.mem_cons_of_mem c hc'))
    refine ⟨(c.id, r) :: ps, ?_, by simp [hmap]⟩
    rw [List.mapM_cons]
    simp only [hr, hps]
    rfl

/-- Python dict building over pairwise-distinct keys keeps every pair in
order. -/
theorem dictOfPairs_of_nodup (ps : List (String × ToolResult))
    (h : (ps.map Prod.fst).Nodup) : dictOfPairs ps = ps := by
  have gen : ∀ (ps acc : List (String × ToolResult)),
      ((acc ++ ps).map Prod.fst).Nodup →
      ps.foldl (fun d p => dictInsert d p.1 p.2) acc = acc ++ ps := by
    intro ps
    induction ps with
    | nil => intro acc _; simp
    | cons p ps ih =>
      intro acc hnd
      have hkey : p.1 ∉ acc.map Prod.fst := by
        intro hmem
        rw [List.map_append] at hnd
        obtain ⟨q, hq, hq1⟩ := List.mem_map.mp hmem
        have := (List.Nodup.sublist (List.sublist_append_left _ _) hnd)
        have hdisj := List.disjoint_of_nodup_append hnd
        exact hdisj hmem (by simp)
      have hfind : acc.find? (fun q => q.1 == p.1) = none := by
        rw [List.find?_eq_none]
        intro q hq
        simp only [beq_iff_eq]
        intro hq1
        exact hkey (List.mem_map.mpr ⟨q, hq, hq1⟩)
      have hins : dictInsert acc p.1 p.2 = acc ++ [p] := by
        unfold dictInsert
        rw [hfind]
        simp
      rw [List.foldl_cons, hins, ih (acc ++ [p]) (by simpa using hnd)]
      simp
  simpa using gen ps [] (by simpa using h)

/-- C1 counterexample: in a batch of two calls where the first tool's
implementation raises, the exception propagates out of
`ToolManager.execute_batch` (no id-keyed mapping is returned at all),
contradicting the claim that it is caught and converted into a failure
`ToolResult`. -/
theorem C1_counterexample :
    ToolManager.execute_batch [boomTool, noopTool]
        [{ id := "call_1", name := "boom", arguments := [] },
         { id := "call_2", name := "noop", arguments := [] }] =
      Except.error "boom" := rfl

/-- C1 (amended): for a batch of N requests with pairwise-distinct
correlation ids in which no tool implementation raises (each dispatch
returns a `ToolResult`, successful or failed — including the "tool not
found" failure), `execute_batch` returns a mapping with exactly N
entries keyed by the input correlation ids in request order; when a tool
implementation raises, the exception propagates out of `execute_batch`
instead of being converted into a failure `ToolResult`. -/
theorem C1_batch_keyed_by_ids (tools : List Tool) (calls : List ToolCall)
    (hnodup : (calls.map ToolCall.id).Nodup)
    (hok : ∀ c ∈ calls, ∃ r, ToolManager.execute tools c.name c.arguments = Except.ok r) :
    ∃ m, ToolManager.execute_batch tools calls = Except.ok m ∧
      m.map Prod.fst = calls.map ToolCall.id ∧
      m.length = calls.length := by
  obtain ⟨ps, hps, hmap⟩ := mapM_execute_ok tools calls hok
  refine ⟨ps, ?_, hmap, ?_⟩
  · unfold ToolManager.execute_batch
    rw [hps]
    simp [dictOfPairs_of_nodup ps (hmap ▸ hnodup)]
  · have := congrArg List.length hmap
    simpa using this

/-- C1 witness: a two-call batch mixing a succeeding tool and an
unregistered tool (which yields a failure `ToolResult`) returns exactly
two entries keyed `call_1`, `call_2`. -/
theorem C1_witness :
    ∃ m, ToolManager.execute_batch [noopTool]
        [{ id := "call_1", name := "noop", arguments := [] },
         { id := "call_2", name := "missing", arguments := [] }] = Except.ok m ∧
      m.map Prod.fst =
        [ToolCall.mk "call_1" "noop" [], ToolCall.mk "call_2" "missing" []].map ToolCall.id ∧
      m.length =
        [ToolCall.mk "call_1" "noop" [], ToolCall.mk "call_2" "missing" []].length := by
  refine C1_batch_keyed_by_ids [noopTool] _ (by decide) ?_
  intro c hc
  rcases hc with _ | ⟨_, hc⟩
  · exact ⟨_, rfl⟩
  · rcases hc with _ | ⟨_, hc⟩
    · exact ⟨_, rfl⟩
    · cases hc

/-- C8 witness: `finish_review(summary="ok", verdict="APPROVE")` with
the default severity succeeds with the normalized payload and
`completed: true`. -/
theorem C8_witness :
    FinishReviewTool.execute "ok" "APPROVE" "medium" =
      { success := true
        data := .obj [("summary", .str "ok"),
                      ("verdict", .str (pyToUpper (pyStrip "APPROVE"))),
                      ("overall_severity", .str (pyToLower (pyStrip "medium"))),
                      ("completed", .bool true)]
        metadata := [("type", .str "completion")] } :=
  (C8_finish_review_validates "ok" "APPROVE" "medium").2.2.2 (by decide) (by decide)

/-- C5: a step never propagates an exception.  When the model call (or
token accounting / tool-call parsing) raises, and likewise when the tool
dispatch raises, `BaseAgent.run` returns a pair — status `failed`, the
exception's description in `error`, the stop signal, and the iteration
counter frozen at the incremented value — instead of raising. -/
theorem C5_step_catches_exceptions :
    (∀ (tools : List Tool) (now : Nat) (e : String) (s : AgentState),
      BaseAgent.run tools now (.error e) s =
        ({ s with iteration := s.iteration + 1, last_update := now,
                  status := .failed, error := some e }, false)) ∧
    (∀ (tools : List Tool) (now : Nat) (r : LLMResponse) (e : String) (s : AgentState),
      r.tool_calls.isEmpty = false →
      ToolManager.execute_batch tools r.tool_calls = .error e →
      (BaseAgent.run tools now (.ok r) s).1.status = .failed ∧
      (BaseAgent.run tools now (.ok r) s).1.error = some e ∧
      (BaseAgent.run tools now (.ok r) s).1.iteration = s.iteration + 1 ∧
      (BaseAgent.run tools now (.ok r) s).2 = false) := by
  constructor
  · intro tools now e s
    rfl
  · intro tools now r e s hne hbatch
    unfold BaseAgent.run
    cases husage : r.usage <;> simp [hne, hbatch, husage]

/-- C5 witness: a provider exception on iteration 2 leaves
status=Failed, the provider's message in `error`, and the iteration
frozen at 2; a raising tool implementation inside a dispatched batch
likewise lands in a Failed state instead of propagating. -/
theorem C5_witness :
    (BaseAgent.run [] 5 (.error "provider timeout") { sampleState with iteration := 1 } =
      ({ sampleState with iteration := 2, last_update := 5,
                          status := .failed, error := some "provider timeout" }, false)) ∧
    ((BaseAgent.run [boomTool] 0
        (.ok { content := "", tool_calls := [⟨"c1", "boom", []⟩], usage := some 3 })
        sampleState).1.status = .failed ∧
     (BaseAgent.run [boomTool] 0
        (.ok { content := "", tool_calls := [⟨"c1", "boom", []⟩], usage := some 3 })
        sampleState).1.error = some "boom" ∧
     (BaseAgent.run [boomTool] 0
        (.ok { content := "", tool_calls := [⟨"c1", "boom", []⟩], usage := some 3 })
        sampleState).1.iteration = sampleState.iteration + 1 ∧
     (BaseAgent.run [boomTool] 0
        (.ok { content := "", tool_calls := [⟨"c1", "boom", []⟩], usage := some 3 })
        sampleState).2 = false) :=
  ⟨C5_step_catches_exceptions.1 [] 5 "provider timeout" _,
   C5_step_catches_exceptions.2 [boomTool] 0
     { content := "", tool_calls := [⟨"c1", "boom", []⟩], usage := some 3 }
     "boom" sampleState rfl rfl⟩

/-- The data of the first completion-signalling result in a batch where
exactly the middle element signals. -/
theorem extract_final_result_unique (pre post : List (String × ToolResult))
    (cid : String) (tr : ToolResult)
    (hsig : signalsCompletion tr = true)
    (hpre : ∀ p ∈ pre, signalsCompletion p.2 = false) :
    BaseAgent.extract_final_result (pre ++ (cid, tr) :: post) = tr.data := by
  unfold BaseAgent.extract_final_result
  rw [List.find?_append]
  have hpre' : pre.find? (fun p => signalsCompletion p.2) = none := by
    rw [List.find?_eq_none]
    intro x hx
    simp [hpre x hx]
  rw [hpre']
  simp [List.find?_cons, hsig]

/-- A batch containing a completion-signalling result is complete. -/
theorem is_complete_of_mem (results : List (String × ToolResult))
    (cid : String) (tr : ToolResult)
    (hmem : (cid, tr) ∈ results) (hsig : signalsCompletion tr = true) :
    BaseAgent.is_complete results = true := by
  unfold BaseAgent.is_complete
  rw [List.any_eq_true]
  exact ⟨(cid, tr), hmem, hsig⟩

/-- C3: when the dispatched batch holds exactly one result that carries
the completion signal, the step sets status Completed, stores that
result's `data` payload in `state.result` unchanged, and returns the
stop signal — no matter how many other tools were in the batch. -/
theorem C3_completion_signal (tools : List Tool) (now : Nat) (r : LLMResponse)
    (s : AgentState) (pre post : List (String × ToolResult))
    (cid : String) (tr : ToolResult)
    (hne : r.tool_calls.isEmpty = false)
    (hbatch : ToolManager.execute_batch tools r.tool_calls =
      Except.ok (pre ++ (cid, tr) :: post))
    (hsig : signalsCompletion tr = true)
    (hpre : ∀ p ∈ pre, signalsCompletion p.2 = false)
    (hpost : ∀ p ∈ post, signalsCompletion p.2 = false) :
    (BaseAgent.run tools now (.ok r) s).1.status = .completed ∧
    (BaseAgent.run tools now (.ok r) s).1.result = some tr.data ∧
    (BaseAgent.run tools now (.ok r) s).2 = false := by
  have hcomp : BaseAgent.is_complete (pre ++ (cid, tr) :: post) = true :=
    is_complete_of_mem _ cid tr (by simp) hsig
  have hext := extract_final_result_unique pre post cid tr hsig hpre
  unfold BaseAgent.run
  cases husage : r.usage <;> simp [hne, hbatch, husage, hcomp, hext]

/-- C3 witness: a two-call batch — a plain succeeding tool and a
completion tool — completes the agent with exactly the completion
tool's data. -/
theorem C3_witness :
    (BaseAgent.run [noopTool, doneTool] 0
        (.ok { content := "", tool_calls := [⟨"c1", "noop", []⟩, ⟨"c2", "done", []⟩],
               usage := some 3 }) sampleState).1.status = .completed ∧
    (BaseAgent.run [noopTool, doneTool] 0
        (.ok { content := "", tool_calls := [⟨"c1", "noop", []⟩, ⟨"c2", "done", []⟩],
               usage := some 3 }) sampleState).1.result =
      some (ToolResult.data { success := true
                              data := .obj [("answer", .str "42"), ("completed", .bool true)] }) ∧
    (BaseAgent.run [noopTool, doneTool] 0
        (.ok { content := "", tool_calls := [⟨"c1", "noop", []⟩, ⟨"c2", "done", []⟩],
               usage := some 3 }) sampleState).2 = false :=
  C3_completion_signal [noopTool, doneTool] 0
    { content := "", tool_calls := [⟨"c1", "noop", []⟩, ⟨"c2", "done", []⟩], usage := some 3 }
    sampleState [("c1", { success := true })] [] "c2"
    { success := true, data := .obj [("answer", .str "42"), ("completed", .bool true)] }
    rfl rfl rfl
    (by intro p hp
        rcases hp with _ | ⟨_, hp⟩
        · rfl
        · cases hp)
    (by intro p hp; cases hp)

/-- C10: when the batch carries a completion signal the step leaves the
transcript untouched — neither the assistant message recording the tool
calls nor any tool-role result message is appended. -/
theorem C10_completion_frame (tools : List Tool) (now : Nat) (r : LLMResponse)
    (s : AgentState) (results : List (String × ToolResult))
    (hne : r.tool_calls.isEmpty = false)
    (hbatch : ToolManager.execute_batch tools r.tool_calls = Except.ok results)
    (hcomp : BaseAgent.is_complete results = true) :
    (BaseAgent.run tools now (.ok r) s).1.messages = s.messages := by
  unfold BaseAgent.run
  cases husage : r.usage <;> simp [hne, hbatch, husage, hcomp]

/-- C10 witness: the completing batch of `C3_witness`'s shape leaves the
two seed messages of the fresh agent state unchanged. -/
theorem C10_witness :
    (BaseAgent.run [doneTool] 0
        (.ok { content := "", tool_calls := [⟨"c1", "done", []⟩], usage := some 3 })
        sampleState).1.messages = sampleState.messages :=
  C10_completion_frame [doneTool] 0
    { content := "", tool_calls := [⟨"c1", "done", []⟩], usage := some 3 }
    sampleState
    [("c1", { success := true, data := .obj [("answer", .str "42"), ("completed", .bool true)] })]
    rfl rfl rfl

/-- On a terminal state `should_stop` stops without any mutation. -/
theorem should_stop_terminal (b : Budget) (now : Nat) (s : AgentState)
    (h : s.status.isTerminal = true) :
    BaseAgent.should_stop b now s = (true, s) := by
  unfold BaseAgent.should_stop
  simp [h]

/-- When `should_stop` decides to continue, it has not mutated the
state, the state is not terminal, and the iteration budget has room. -/
theorem should_stop_false (b : Budget) (now : Nat) (s : AgentState)
    (h : (BaseAgent.should_stop b now s).1 = false) :
    (BaseAgent.should_stop b now s).2 = s ∧ s.status.isTerminal = false ∧
    s.iteration < b.max_iterations := by
  unfold BaseAgent.should_stop at h ⊢
  by_cases h1 : s.status.isTerminal = true
  · simp [h1] at h
  · by_cases h2 : b.max_iterations ≤ s.iteration
    · simp [h1, h2] at h
    · by_cases h3 : b.max_tokens ≤ s.tokens_used
      · simp [h1, h2, h3] at h
      · by_cases h4 : b.max_tool_calls ≤ s.tool_calls_made
        · simp [h1, h2, h3, h4] at h
        · by_cases h5 : b.max_duration_seconds ≤ now - s.start_time
          · simp [h1, h2, h3, h4, h5] at h
          · simp [h1, h2, h3, h4, h5]
            omega

/-- `BaseAgent.run` increments the iteration counter by exactly one no
matter how the step turns out (the increment precedes the `try`). -/
theorem run_iteration_succ (tools : List Tool) (now : Nat)
    (resp : Except String LLMResponse) (s : AgentState) :
    (BaseAgent.run tools now resp s).1.iteration = s.iteration + 1 := by
  unfold BaseAgent.run
  cases resp with
  | error e => rfl
  | ok r =>
    cases r.usage <;> dsimp only <;> (repeat' split) <;> rfl

/-- The loop makes at most `max_iterations - iteration` further `run`
calls, for any step function that increments the iteration counter and
any amount of fuel. -/
theorem AgentLoop.count_le (b : Budget) (clock : Nat → Nat)
    (f : AgentState → AgentState × Bool)
    (hf : ∀ s, (f s).1.iteration = s.iteration + 1) :
    ∀ (fuel : Nat) (s : AgentState),
      (AgentLoop.execute b clock f fuel s).2 ≤ b.max_iterations - s.iteration := by
  intro fuel
  induction fuel with
  | zero =>
    intro s
    simp [AgentLoop.execute]
  | succ n ih =>
    intro s
    cases hss : (BaseAgent.should_stop b (clock (n + 1)) s).1 with
    | true => simp [AgentLoop.execute, hss]
    | false =>
      obtain ⟨-, -, hlt⟩ := should_stop_false b (clock (n + 1)) s hss
      cases hfr : (f s).2 with
      | false =>
        simp [AgentLoop.execute, hss, hfr]
        omega
      | true =>
        have hi := hf s
        have hrest := ih (f s).1
        simp only [AgentLoop.execute, hss, hfr, Bool.false_eq_true, if_false, if_true]
        omega

/-- C2: for every budget configuration, the orchestrator loop performs
at most `max_iterations` calls to the agent's step function, regardless
of fuel (i.e. even if the model never signals completion); moreover the
embedded `BaseAgent.run` satisfies the step contract the bound relies on
(each call increments the iteration counter by exactly one). -/
theorem C2_loop_iteration_bound (b : Budget) (clock : Nat → Nat)
    (f : AgentState → AgentState × Bool)
    (hf : ∀ s, (f s).1.iteration = s.iteration + 1)
    (s : AgentState) (h0 : s.iteration = 0) (fuel : Nat) :
    (AgentLoop.execute b clock f fuel s).2 ≤ b.max_iterations ∧
    (∀ (tools : List Tool) (now : Nat) (resp : Except String LLMResponse)
       (s' : AgentState),
      (BaseAgent.run tools now resp s').1.iteration = s'.iteration + 1) := by
  constructor
  · have := AgentLoop.count_le b clock f hf fuel s
    omega
  · exact run_iteration_succ

/-- C2 witness: with `max_iterations = 2` and a step that always asks to
continue, ten units of fuel still yield at most two step calls. -/
theorem C2_witness :
    (AgentLoop.execute ⟨2, 1000, 1000, 1000⟩ (fun _ => 0) bareStep 10 sampleState).2 ≤ 2 ∧
    (∀ (tools : List Tool) (now : Nat) (resp : Except String LLMResponse)
       (s' : AgentState),
      (BaseAgent.run tools now resp s').1.iteration = s'.iteration + 1) :=
  C2_loop_iteration_bound ⟨2, 1000, 1000, 1000⟩ (fun _ => 0) bareStep
    (fun _ => rfl) sampleState rfl 10

/-- C4: evaluated on a non-terminal state with some budget exhausted,
the termination policy stops, forces status Completed, and records in
`result` a `{"reason": ...}` naming a limit that did trigger; and in the
concrete scenario (budgets 3/100000/10/300, a model that never calls a
completion tool) the loop runs exactly 3 steps and ends Completed with
reason `max_iterations_reached`. -/
theorem C4_limits_force_completion :
    (∀ (b : Budget) (now : Nat) (s : AgentState),
      s.status.isTerminal = false →
      (b.max_iterations ≤ s.iteration ∨ b.max_tokens ≤ s.tokens_used ∨
       b.max_tool_calls ≤ s.tool_calls_made ∨
       b.max_duration_seconds ≤ now - s.start_time) →
      (BaseAgent.should_stop b now s).1 = true ∧
      (BaseAgent.should_stop b now s).2.status = .completed ∧
      ∃ reason,
        (BaseAgent.should_stop b now s).2.result = some (reasonResult reason) ∧
        ((reason = "max_iterations_reached" ∧ b.max_iterations ≤ s.iteration) ∨
         (reason = "max_tokens_reached" ∧ b.max_tokens ≤ s.tokens_used) ∨
         (reason = "max_tool_calls_reached" ∧ b.max_tool_calls ≤ s.tool_calls_made) ∨
         (reason = "max_duration_reached" ∧
           b.max_duration_seconds ≤ now - s.start_time))) ∧
    ((AgentLoop.execute ⟨3, 100000, 10, 300⟩ (fun _ => 0) noToolStep 100 sampleState).2 = 3 ∧
     (AgentLoop.execute ⟨3, 100000, 10, 300⟩ (fun _ => 0) noToolStep 100
        sampleState).1.status = .completed ∧
     (AgentLoop.execute ⟨3, 100000, 10, 300⟩ (fun _ => 0) noToolStep 100
        sampleState).1.result = some (reasonResult "max_iterations_reached")) := by
  constructor
  · intro b now s hterm hlim
    unfold BaseAgent.should_stop
    rw [if_neg (by simp [hterm] : ¬ s.status.isTerminal = true)]
    by_cases h1 : b.max_iterations ≤ s.iteration
    · rw [if_pos h1]
      exact ⟨rfl, rfl, "max_iterations_reached", rfl, Or.inl ⟨rfl, h1⟩⟩
    · rw [if_neg h1]
      by_cases h2 : b.max_tokens ≤ s.tokens_used
      · rw [if_pos h2]
        exact ⟨rfl, rfl, "max_tokens_reached", rfl, Or.inr (Or.inl ⟨rfl, h2⟩)⟩
      · rw [if_neg h2]
        by_cases h3 : b.max_tool_calls ≤ s.tool_calls_made
        · rw [if_pos h3]
          exact ⟨rfl, rfl, "max_tool_calls_reached", rfl,
            Or.inr (Or.inr (Or.inl ⟨rfl, h3⟩))⟩
        · rw [if_neg h3]
          have h4 : b.max_duration_seconds ≤ now - s.start_time := by
            rcases hlim with h | h | h | h
            · exact absurd h h1
            · exact absurd h h2
            · exact absurd h h3
            · exact h
          rw [if_pos h4]
          exact ⟨rfl, rfl, "max_duration_reached", rfl,
            Or.inr (Or.inr (Or.inr ⟨rfl, h4⟩))⟩
  · exact ⟨rfl, rfl, rfl⟩

/-- C4 witness: a state over the token budget (tokens_used = 150 with
max_tokens = 100) is forced to `completed` with a recorded reason. -/
theorem C4_witness :
    (BaseAgent.should_stop ⟨5, 100, 10, 300⟩ 0
        { sampleState with tokens_used := 150 }).1 = true ∧
    (BaseAgent.should_stop ⟨5, 100, 10, 300⟩ 0
        { sampleState with tokens_used := 150 }).2.status = .completed ∧
    ∃ reason,
      (BaseAgent.should_stop ⟨5, 100, 10, 300⟩ 0
          { sampleState with tokens_used := 150 }).2.result =
        some (reasonResult reason) ∧
      ((reason = "max_iterations_reached" ∧ (5 : Nat) ≤ 0) ∨
       (reason = "max_tokens_reached" ∧ (100 : Nat) ≤ 150) ∨
       (reason = "max_tool_calls_reached" ∧ (10 : Nat) ≤ 0) ∨
       (reason = "max_duration_reached" ∧ (300 : Nat) ≤ 0 - 0)) :=
  C4_limits_force_completion.1 ⟨5, 100, 10, 300⟩ 0
    { sampleState with tokens_used := 150 } rfl (Or.inr (Or.inl (by decide)))

/-- Every trace starts with the state it was started from. -/
theorem AgentLoop.trace_head (b : Budget) (clock : Nat → Nat)
    (f : AgentState → AgentState × Bool) (fuel : Nat) (s : AgentState) :
    (AgentLoop.trace b clock f fuel s).head? = some s := by
  cases fuel with
  | zero => rfl
  | succ n =>
    unfold AgentLoop.trace
    dsimp only
    split
    · rfl
    · split <;> rfl

/-- Loop-level states: once terminal, every following state in the
trace is the very same state. -/
theorem AgentLoop.trace_chain_eq (b : Budget) (clock : Nat → Nat)
    (f : AgentState → AgentState × Bool) :
    ∀ (fuel : Nat) (s : AgentState),
      List.Chain' (fun a c => a.status.isTerminal = true → c = a)
        (AgentLoop.trace b clock f fuel s) := by
  intro fuel
  induction fuel with
  | zero =>
    intro s
    exact List.chain'_singleton s
  | succ n ih =>
    intro s
    unfold AgentLoop.trace
    dsimp only
    by_cases hss : (BaseAgent.should_stop b (clock (n + 1)) s).1 = true
    · rw [if_pos hss]
      refine List.chain'_cons'.mpr ⟨?_, List.chain'_singleton _⟩
      intro y hy hterm
      have heq := should_stop_terminal b (clock (n + 1)) s hterm
      simp only [List.head?_cons, Option.mem_def, Option.some.injEq] at hy
      rw [← hy, heq]
    · have hne : (BaseAgent.should_stop b (clock (n + 1)) s).1 = false := by
        simpa using hss
      obtain ⟨-, hterm, -⟩ := should_stop_false b (clock (n + 1)) s hne
      rw [if_neg hss]
      by_cases hfr : (f s).2 = true
      · rw [if_pos hfr]
        refine List.chain'_cons'.mpr ⟨?_, ih (f s).1⟩
        intro y _ ht
        rw [hterm] at ht
        cases ht
      · rw [if_neg hfr]
        refine List.chain'_cons'.mpr ⟨?_, List.chain'_singleton _⟩
        intro y _ ht
        rw [hterm] at ht
        cases ht

/-- In a chain where a marked element forces its successor to equal it,
the mark propagates: every element at or after a marked one equals it. -/
theorem chain_eq_propagate {α : Type} (P : α → Bool) (l : List α)
    (h : List.Chain' (fun a c => P a = true → c = a) l) (i : Nat) (hi : i < l.length)
    (hP : P (l.get ⟨i, hi⟩) = true) :
    ∀ (j : Nat) (hj : j < l.length), i ≤ j → l.get ⟨j, hj⟩ = l.get ⟨i, hi⟩ := by
  intro j
  induction j with
  | zero =>
    intro hj hij
    have h0 : i = 0 := Nat.le_zero.mp hij
    subst h0
    rfl
  | succ k ih =>
    intro hj hij
    by_cases hik : i = k + 1
    · subst hik
      rfl
    · have hij' : i ≤ k := by omega
      have hk : k < l.length := by omega
      have hkk := ih hk hij'
      have hstep := List.chain'_iff_get.mp h k (by omega)
      rw [hkk] at hstep
      exact hstep hP

/-- C6: along every execution of the orchestrator loop, once a
loop-level state is terminal (Completed or Failed) every later
loop-level state (not merely the next one) keeps that status, and the
iteration, token and tool-call counters are never mutated again. -/
theorem C6_terminal_is_frozen (b : Budget) (clock : Nat → Nat)
    (f : AgentState → AgentState × Bool) (fuel : Nat) (s : AgentState) :
    List.Chain' statusCountersFrozen (AgentLoop.trace b clock f fuel s) ∧
    (∀ (i j : Nat) (hi : i < (AgentLoop.trace b clock f fuel s).length)
       (hj : j < (AgentLoop.trace b clock f fuel s).length), i ≤ j →
      ((AgentLoop.trace b clock f fuel s).get ⟨i, hi⟩).status.isTerminal = true →
      (AgentLoop.trace b clock f fuel s).get ⟨j, hj⟩ =
        (AgentLoop.trace b clock f fuel s).get ⟨i, hi⟩) := by
  constructor
  · refine List.Chain'.imp ?_ (AgentLoop.trace_chain_eq b clock f fuel s)
    intro a c h ht
    rw [h ht]
    exact ⟨rfl, rfl, rfl, rfl⟩
  · intro i j hi hj hij hterm
    exact chain_eq_propagate (fun a => a.status.isTerminal) _
      (AgentLoop.trace_chain_eq b clock f fuel s) i hi hterm j hj hij

end Metis
